import Mathlib

/-!
Verification of the oscars-analytics repository.

Each Python function that the claims touch is shallowly embedded as an
executable Lean definition.  External components (the VADER sentiment
analyzer, the HTTP transport, the OpenAI agents, CPython's `ast.parse`
and the `re` match positions) are passed in as oracle parameters; the
control flow, arithmetic and string manipulation around them follow the
Python source.  Machine floats are modelled as rationals.
-/

namespace OscarsAnalytics

/-! ### Sentiment analysis: src/sentiment_analysis.py -/

namespace Sentiment

/-- Python's `round(x * 10) / 10` rounding kernel: round half to even. -/
def roundHalfEven (q : ℚ) : ℤ :=
  if Int.fract q < 1/2 then ⌊q⌋
  else if 1/2 < Int.fract q then ⌊q⌋ + 1
  else if Even ⌊q⌋ then ⌊q⌋ else ⌊q⌋ + 1

/-- Python `round(q, 1)`: one decimal digit, banker's rounding. -/
def round1 (q : ℚ) : ℚ := (roundHalfEven (q * 10) : ℚ) / 10

theorem abs_roundHalfEven_sub_le (q : ℚ) : |(roundHalfEven q : ℚ) - q| ≤ 1/2 := by
  have h0 : (0 : ℚ) ≤ Int.fract q := Int.fract_nonneg q
  have h1 : Int.fract q < 1 := Int.fract_lt_one q
  have hf : (⌊q⌋ : ℚ) = q - Int.fract q := by
    have := Int.self_sub_fract q
    linarith
  rw [abs_le]
  unfold roundHalfEven
  split_ifs <;> push_cast <;> constructor <;> linarith

theorem abs_round1_sub_le (q : ℚ) : |round1 q - q| ≤ 1/20 := by
  have h := abs_roundHalfEven_sub_le (q * 10)
  have : round1 q - q = ((roundHalfEven (q * 10) : ℚ) - q * 10) / 10 := by
    unfold round1; ring
  rw [this, abs_div]
  have h10 : |(10 : ℚ)| = 10 := by norm_num
  rw [h10]
  linarith

/-- `classify_sentiment` from src/sentiment_analysis.py:
positive iff compound ≥ 0.05, negative iff compound ≤ -0.05, else neutral. -/
def classify_sentiment (compound_score : ℚ) : String :=
  if 5/100 ≤ compound_score then "Positive"
  else if compound_score ≤ -(5/100) then "Negative"
  else "Neutral"

/-- One entry of the list built by `analyze_sentiment`.  The VADER
per-class scores (`neg`/`neu`/`pos`) and the truncated preview are not
used by `generate_summary` and are omitted. -/
structure SentimentRecord where
  full_comment : String
  compound : ℚ
  sentiment : String
deriving Repr, DecidableEq

/-- `analyze_sentiment`: the VADER engine is the oracle `analyzer`
giving each comment's compound score; each comment is labelled by
`classify_sentiment` of its compound score. -/
def analyze_sentiment (comments : List String) (analyzer : String → ℚ) :
    List SentimentRecord :=
  comments.map (fun comment =>
    { full_comment := comment
      compound := analyzer comment
      sentiment := classify_sentiment (analyzer comment) })

/-- The dict returned by `generate_summary`.  On the empty list the
Python dict carries only the four count keys; the percentage and
average keys are absent, which we render as `none`. -/
structure Summary where
  total : ℕ
  positive : ℕ
  negative : ℕ
  neutral : ℕ
  positive_pct : Option ℚ
  negative_pct : Option ℚ
  neutral_pct : Option ℚ
  avg_compound : Option ℚ
deriving Repr, DecidableEq

/-- `generate_summary` from src/sentiment_analysis.py. -/
def generate_summary (results : List SentimentRecord) : Summary :=
  let total := results.length
  if total = 0 then
    { total := 0, positive := 0, negative := 0, neutral := 0
      positive_pct := none, negative_pct := none, neutral_pct := none
      avg_compound := none }
  else
    let positive := (results.filter (fun r => r.sentiment == "Positive")).length
    let negative := (results.filter (fun r => r.sentiment == "Negative")).length
    let neutral := (results.filter (fun r => r.sentiment == "Neutral")).length
    let avg_compound := (results.map (·.compound)).sum / (total : ℚ)
    { total := total, positive := positive, negative := negative, neutral := neutral
      positive_pct := some (round1 ((positive : ℚ) / (total : ℚ) * 100))
      negative_pct := some (round1 ((negative : ℚ) / (total : ℚ) * 100))
      neutral_pct := some (round1 ((neutral : ℚ) / (total : ℚ) * 100))
      avg_compound := some (round1 avg_compound) }

theorem classify_sentiment_cases (c : ℚ) :
    classify_sentiment c = "Positive" ∨ classify_sentiment c = "Negative" ∨
      classify_sentiment c = "Neutral" := by
  unfold classify_sentiment
  split_ifs <;> simp

end Sentiment

/-- Three mutually exclusive labels partition a list's length. -/
theorem filter_three_labels_length {α : Type} (f : α → String) (A B C : String)
    (hAB : A ≠ B) (hAC : A ≠ C) (hBC : B ≠ C) (l : List α)
    (h : ∀ r ∈ l, f r = A ∨ f r = B ∨ f r = C) :
    (l.filter (fun r => f r == A)).length + (l.filter (fun r => f r == B)).length +
      (l.filter (fun r => f r == C)).length = l.length := by
  induction l with
  | nil => simp
  | cons r t ih =>
    have hr := h r (List.mem_cons_self r t)
    have ht := ih (fun x hx => h x (List.mem_cons_of_mem r hx))
    rcases hr with h1 | h1 | h1 <;>
      simp [List.filter_cons, h1, hAB, hAC, hBC, Ne.symm hAB, Ne.symm hAC, Ne.symm hBC] <;>
      omega

/-- Rounding three rationals that exactly sum to 100 keeps the sum within
0.15 of 100. -/
theorem round1_sum_three_near (a b c : ℚ) (h : a + b + c = 100) :
    |Sentiment.round1 a + Sentiment.round1 b + Sentiment.round1 c - 100| ≤ 3/20 := by
  have ha := Sentiment.abs_round1_sub_le a
  have hb := Sentiment.abs_round1_sub_le b
  have hc := Sentiment.abs_round1_sub_le c
  have hsplit : Sentiment.round1 a + Sentiment.round1 b + Sentiment.round1 c - 100 =
      (Sentiment.round1 a - a) + (Sentiment.round1 b - b) + (Sentiment.round1 c - c) := by
    rw [← h]; ring
  rw [hsplit]
  calc |(Sentiment.round1 a - a) + (Sentiment.round1 b - b) + (Sentiment.round1 c - c)|
      ≤ |Sentiment.round1 a - a| + |Sentiment.round1 b - b| + |Sentiment.round1 c - c| :=
        abs_add_three _ _ _
    _ ≤ 3/20 := by linarith

/-! ### Sentiment analysis: src/analyze_all_sources.py -/

namespace AllSources

/-- `classify_sentiment` from src/analyze_all_sources.py (lower-case labels,
same 0.05 / -0.05 thresholds). -/
def classify_sentiment (compound : ℚ) : String :=
  if 5/100 ≤ compound then "positive"
  else if compound ≤ -(5/100) then "negative"
  else "neutral"

/-- One entry of the list built by `analyze_comments`. -/
structure CommentRecord where
  text : String
  compound : ℚ
  sentiment : String
deriving Repr, DecidableEq

/-- `analyze_comments`: skips empty, `[deleted]` and `[removed]` comments,
truncates the preview text to 150 characters, and labels each comment by
`classify_sentiment` of its VADER compound score (oracle `analyzer`). -/
def analyze_comments (comments : List String) (analyzer : String → ℚ) :
    List CommentRecord :=
  (comments.filter
      (fun c => !(c == "" || c == "[deleted]" || c == "[removed]"))).map
    (fun c =>
      { text := if c.length > 150 then c.take 150 ++ "..." else c
        compound := analyzer c
        sentiment := classify_sentiment (analyzer c) })

/-- The dict returned by `calculate_stats`; on the empty list every field,
including the percentages, is present and zero. -/
structure Stats where
  total : ℕ
  positive : ℕ
  negative : ℕ
  neutral : ℕ
  positive_pct : ℚ
  negative_pct : ℚ
  neutral_pct : ℚ
  avg_compound : ℚ
deriving Repr, DecidableEq

/-- `calculate_stats` from src/analyze_all_sources.py. -/
def calculate_stats (comments : List CommentRecord) : Stats :=
  if comments.isEmpty then
    { total := 0, positive := 0, negative := 0, neutral := 0
      positive_pct := 0, negative_pct := 0, neutral_pct := 0, avg_compound := 0 }
  else
    let total := comments.length
    let positive := (comments.filter (fun c => c.sentiment == "positive")).length
    let negative := (comments.filter (fun c => c.sentiment == "negative")).length
    let neutral := (comments.filter (fun c => c.sentiment == "neutral")).length
    let avg_compound := (comments.map (·.compound)).sum / (total : ℚ)
    { total := total, positive := positive, negative := negative, neutral := neutral
      positive_pct := Sentiment.round1 ((positive : ℚ) / (total : ℚ) * 100)
      negative_pct := Sentiment.round1 ((negative : ℚ) / (total : ℚ) * 100)
      neutral_pct := Sentiment.round1 ((neutral : ℚ) / (total : ℚ) * 100)
      avg_compound := Sentiment.round1 avg_compound }

theorem classify_lower_cases (c : ℚ) :
    classify_sentiment c = "positive" ∨ classify_sentiment c = "negative" ∨
      classify_sentiment c = "neutral" := by
  unfold classify_sentiment
  split_ifs <;> simp

end AllSources

theorem pct_sum_100 (P N U T : ℕ) (hsum : P + N + U = T) (hT : T ≠ 0) :
    (P : ℚ) / T * 100 + (N : ℚ) / T * 100 + (U : ℚ) / T * 100 = 100 := by
  have hTQ : (T : ℚ) ≠ 0 := Nat.cast_ne_zero.2 hT
  have hQ : (P : ℚ) + N + U = T := by push_cast [← hsum]; ring
  field_simp
  linarith

theorem analyze_sentiment_labels (comments : List String) (analyzer : String → ℚ) :
    ∀ r ∈ Sentiment.analyze_sentiment comments analyzer,
      r.sentiment = "Positive" ∨ r.sentiment = "Negative" ∨ r.sentiment = "Neutral" := by
  intro r hr
  obtain ⟨c, _, rfl⟩ := List.mem_map.1 hr
  exact Sentiment.classify_sentiment_cases _

theorem analyze_comments_labels (comments : List String) (analyzer : String → ℚ) :
    ∀ r ∈ AllSources.analyze_comments comments analyzer,
      r.sentiment = "positive" ∨ r.sentiment = "negative" ∨ r.sentiment = "neutral" := by
  intro r hr
  obtain ⟨c, _, rfl⟩ := List.mem_map.1 hr
  exact AllSources.classify_lower_cases _

/-- C3: for every analyzed comment list, positive + neutral + negative counts
equal the total (each comment gets exactly one of the three labels from the
0.05 / -0.05 compound thresholds), and the three reported percentages sum to
100 up to rounding (within 0.15), for both `generate_summary`
(sentiment_analysis.py) and `calculate_stats` (analyze_all_sources.py). -/
theorem sentiment_summary_partition (comments : List String) (analyzer : String → ℚ) :
    ((Sentiment.generate_summary (Sentiment.analyze_sentiment comments analyzer)).positive +
        (Sentiment.generate_summary (Sentiment.analyze_sentiment comments analyzer)).neutral +
        (Sentiment.generate_summary (Sentiment.analyze_sentiment comments analyzer)).negative =
      (Sentiment.generate_summary (Sentiment.analyze_sentiment comments analyzer)).total) ∧
    ((Sentiment.generate_summary (Sentiment.analyze_sentiment comments analyzer)).total ≠ 0 →
      ∃ p n u,
        (Sentiment.generate_summary
            (Sentiment.analyze_sentiment comments analyzer)).positive_pct = some p ∧
        (Sentiment.generate_summary
            (Sentiment.analyze_sentiment comments analyzer)).negative_pct = some n ∧
        (Sentiment.generate_summary
            (Sentiment.analyze_sentiment comments analyzer)).neutral_pct = some u ∧
        |p + n + u - 100| ≤ 3/20) ∧
    ((AllSources.calculate_stats (AllSources.analyze_comments comments analyzer)).positive +
        (AllSources.calculate_stats (AllSources.analyze_comments comments analyzer)).neutral +
        (AllSources.calculate_stats (AllSources.analyze_comments comments analyzer)).negative =
      (AllSources.calculate_stats (AllSources.analyze_comments comments analyzer)).total) ∧
    ((AllSources.calculate_stats (AllSources.analyze_comments comments analyzer)).total ≠ 0 →
      |(AllSources.calculate_stats
            (AllSources.analyze_comments comments analyzer)).positive_pct +
          (AllSources.calculate_stats
            (AllSources.analyze_comments comments analyzer)).negative_pct +
          (AllSources.calculate_stats
            (AllSources.analyze_comments comments analyzer)).neutral_pct - 100| ≤ 3/20) := by
  set l := Sentiment.analyze_sentiment comments analyzer with hl
  set m := AllSources.analyze_comments comments analyzer with hm
  have hlab := analyze_sentiment_labels comments analyzer
  have hmab := analyze_comments_labels comments analyzer
  rw [← hl] at hlab
  rw [← hm] at hmab
  have hcount := filter_three_labels_length Sentiment.SentimentRecord.sentiment "Positive"
    "Negative" "Neutral" (by decide) (by decide) (by decide) l hlab
  have hcountm := filter_three_labels_length AllSources.CommentRecord.sentiment "positive"
    "negative" "neutral" (by decide) (by decide) (by decide) m hmab
  have hgs_ne : l.length ≠ 0 → Sentiment.generate_summary l =
          { total := l.length
            positive := (l.filter (fun r => r.sentiment == "Positive")).length
            negative := (l.filter (fun r => r.sentiment == "Negative")).length
            neutral := (l.filter (fun r => r.sentiment == "Neutral")).length
            positive_pct := some (Sentiment.round1
              (((l.filter (fun r => r.sentiment == "Positive")).length : ℚ) /
                (l.length : ℚ) * 100))
            negative_pct := some (Sentiment.round1
              (((l.filter (fun r => r.sentiment == "Negative")).length : ℚ) /
                (l.length : ℚ) * 100))
            neutral_pct := some (Sentiment.round1
              (((l.filter (fun r => r.sentiment == "Neutral")).length : ℚ) /
                (l.length : ℚ) * 100))
            avg_compound := some (Sentiment.round1
              ((l.map (·.compound)).sum / (l.length : ℚ))) } := by
    intro h0
    simp [Sentiment.generate_summary, h0]
  have hcs_ne : ¬ m.isEmpty → AllSources.calculate_stats m =
          { total := m.length
            positive := (m.filter (fun c => c.sentiment == "positive")).length
            negative := (m.filter (fun c => c.sentiment == "negative")).length
            neutral := (m.filter (fun c => c.sentiment == "neutral")).length
            positive_pct := Sentiment.round1
              (((m.filter (fun c => c.sentiment == "positive")).length : ℚ) /
                (m.length : ℚ) * 100)
            negative_pct := Sentiment.round1
              (((m.filter (fun c => c.sentiment == "negative")).length : ℚ) /
                (m.length : ℚ) * 100)
            neutral_pct := Sentiment.round1
              (((m.filter (fun c => c.sentiment == "neutral")).length : ℚ) /
                (m.length : ℚ) * 100)
            avg_compound := Sentiment.round1
              ((m.map (·.compound)).sum / (m.length : ℚ)) } := by
    intro h0
    simp [AllSources.calculate_stats, h0]
  refine ⟨?_, ?_, ?_, ?_⟩
  · by_cases h0 : l.length = 0
    · rw [List.length_eq_zero.1 h0]
      rfl
    · rw [hgs_ne h0]
      dsimp only
      omega
  · intro htot
    by_cases h0 : l.length = 0
    · exact absurd (by rw [List.length_eq_zero.1 h0]; rfl) htot
    · rw [hgs_ne h0]
      refine ⟨_, _, _, rfl, rfl, rfl, ?_⟩
      exact round1_sum_three_near _ _ _ (pct_sum_100 _ _ _ _ hcount h0)
  · by_cases h0 : m.isEmpty
    · rw [List.isEmpty_iff.1 h0]
      rfl
    · rw [hcs_ne h0]
      dsimp only
      omega
  · intro htot
    by_cases h0 : m.isEmpty
    · exact absurd (by rw [List.isEmpty_iff.1 h0]; rfl) htot
    · have h0' : m.length ≠ 0 := by
        simpa [List.isEmpty_iff_length_eq_zero] using h0
      rw [hcs_ne h0]
      exact round1_sum_three_near _ _ _ (pct_sum_100 _ _ _ _ hcountm h0')

/-- Witness for the percentage clauses of `sentiment_summary_partition` at a
concrete one-comment input with compound score 1/2 ("Positive"). -/
theorem sentiment_summary_partition_witness :
    ((Sentiment.generate_summary
        (Sentiment.analyze_sentiment ["great"] (fun _ => 1/2))).total ≠ 0 ∧
      (Sentiment.generate_summary
        (Sentiment.analyze_sentiment ["great"] (fun _ => 1/2))).positive +
        (Sentiment.generate_summary
          (Sentiment.analyze_sentiment ["great"] (fun _ => 1/2))).neutral +
        (Sentiment.generate_summary
          (Sentiment.analyze_sentiment ["great"] (fun _ => 1/2))).negative =
      (Sentiment.generate_summary
        (Sentiment.analyze_sentiment ["great"] (fun _ => 1/2))).total) ∧
    ∃ p n u,
      (Sentiment.generate_summary
          (Sentiment.analyze_sentiment ["great"] (fun _ => 1/2))).positive_pct = some p ∧
      (Sentiment.generate_summary
          (Sentiment.analyze_sentiment ["great"] (fun _ => 1/2))).negative_pct = some n ∧
      (Sentiment.generate_summary
          (Sentiment.analyze_sentiment ["great"] (fun _ => 1/2))).neutral_pct = some u ∧
      |p + n + u - 100| ≤ 3/20 := by
  have h := sentiment_summary_partition ["great"] (fun _ => 1/2)
  have htot : (Sentiment.generate_summary
      (Sentiment.analyze_sentiment ["great"] (fun _ => 1/2))).total ≠ 0 := by decide
  exact ⟨⟨htot, h.1⟩, h.2.1 htot⟩

/-- C4: the empty comment list yields the zero-stats record; the
percentage/average branch, the only one dividing by the total, is not taken
(`none` percentages for `generate_summary`, the constant-zero record for
`calculate_stats`). -/
theorem empty_list_zero_stats (analyzer : String → ℚ) :
    Sentiment.generate_summary (Sentiment.analyze_sentiment [] analyzer) =
      { total := 0, positive := 0, negative := 0, neutral := 0
        positive_pct := none, negative_pct := none, neutral_pct := none
        avg_compound := none } ∧
    AllSources.calculate_stats (AllSources.analyze_comments [] analyzer) =
      { total := 0, positive := 0, negative := 0, neutral := 0
        positive_pct := 0, negative_pct := 0, neutral_pct := 0, avg_compound := 0 } :=
  ⟨rfl, rfl⟩

/-! ### Kalshi market keyword matching:
src/oscars-dashboard/backend/kalshi_client.py -/

namespace Kalshi

/-- Python `\w` (ASCII range): letters, digits, underscore. -/
def isWordChar (c : Char) : Bool := c.isAlphanum || c = '_'

/-- Is the character at position `i` of `t` (if any) a word character? -/
def wordAt (t : List Char) (i : ℕ) : Bool :=
  match t.get? i with
  | some c => isWordChar c
  | none => false

/-- The `re` word boundary `\b` at position `i` of `t`: the word-ness of the
character before position `i` differs from the word-ness at position `i`
(out-of-range counts as non-word). -/
def boundaryAt (t : List Char) (i : ℕ) : Bool :=
  (if i = 0 then false else wordAt t (i - 1)) != wordAt t i

/-- The literal `kw` occurs in `t` starting at position `i`. -/
def substringAt (t kw : List Char) (i : ℕ) : Bool :=
  (t.drop i).take kw.length == kw

/-- `re.search(r"\b" + re.escape(kw) + r"\b", t)`: the literal `kw` occurs
somewhere in `t` with word boundaries on both sides. -/
def searchWholeWord (t kw : List Char) : Bool :=
  (List.range (t.length + 1)).any fun i =>
    substringAt t kw i && boundaryAt t i && boundaryAt t (i + kw.length)

/-- Python `kw in t` substring containment. -/
def containsSub (t kw : List Char) : Bool :=
  (List.range (t.length + 1)).any fun i => substringAt t kw i

/-- Python `s.lower()`. -/
def lowerStr (t : List Char) : List Char := t.map Char.toLower

/-- `match_keywords` from kalshi_client.py: empty text matches nothing;
keywords of length ≤ 4 need a case-insensitive whole-word match, longer
keywords a case-insensitive substring match. -/
def match_keywords (text : String) (keywords : List String) : List String :=
  if text = "" then []
  else
    keywords.filter fun keyword =>
      if keyword.length ≤ 4 then
        searchWholeWord (lowerStr text.toList) (lowerStr keyword.toList)
      else
        containsSub (lowerStr text.toList) (lowerStr keyword.toList)

/-- Spec-side predicate: `kw` occurs in `text` as a case-insensitive whole
word (word boundaries on both sides after lowercasing). -/
def OccursAsWholeWord (text kw : String) : Prop :=
  ∃ i, ((lowerStr text.toList).drop i).take kw.length = lowerStr kw.toList ∧
    boundaryAt (lowerStr text.toList) i = true ∧
    boundaryAt (lowerStr text.toList) (i + kw.length) = true

/-- Spec-side predicate: `kw` occurs in `text` as a case-insensitive
substring. -/
def OccursAsSubstring (text kw : String) : Prop :=
  ∃ i, ((lowerStr text.toList).drop i).take kw.length = lowerStr kw.toList

theorem substring_bound {t kw : List Char} {i : ℕ}
    (h : (t.drop i).take kw.length = kw) : kw = [] ∨ i + kw.length ≤ t.length := by
  by_cases hk : kw = []
  · exact Or.inl hk
  · right
    have hlen := congrArg List.length h
    have hk' : kw.length ≠ 0 := by simpa [List.length_eq_zero] using hk
    simp [List.length_take, List.length_drop] at hlen
    omega

theorem boundaryAt_of_gt {t : List Char} {i : ℕ} (h : t.length < i) :
    boundaryAt t i = false := by
  have h1 : t.get? i = none := List.get?_eq_none.2 (by omega)
  have h2 : t.get? (i - 1) = none := List.get?_eq_none.2 (by omega)
  have hi : i ≠ 0 := by omega
  rw [boundaryAt, wordAt, wordAt, h1, h2, if_neg hi]
  rfl

/-- `lowerStr` preserves length, and a string's list length is its length. -/
theorem lowerStr_toList_length (s : String) : (lowerStr s.toList).length = s.length := by
  rw [lowerStr, List.length_map]
  rfl

theorem searchWholeWord_iff (t kw : List Char) :
    searchWholeWord t kw = true ↔
      ∃ i, (t.drop i).take kw.length = kw ∧ boundaryAt t i = true ∧
        boundaryAt t (i + kw.length) = true := by
  unfold searchWholeWord
  rw [List.any_eq_true]
  constructor
  · rintro ⟨i, _, hp⟩
    simp only [Bool.and_eq_true, substringAt, beq_iff_eq] at hp
    exact ⟨i, hp.1.1, hp.1.2, hp.2⟩
  · rintro ⟨i, h1, h2, h3⟩
    have hle : i ≤ t.length := by
      by_contra hgt
      rw [boundaryAt_of_gt (by omega)] at h2
      exact Bool.false_ne_true h2
    refine ⟨i, List.mem_range.2 (by omega), ?_⟩
    simp only [Bool.and_eq_true, substringAt, beq_iff_eq]
    exact ⟨⟨h1, h2⟩, h3⟩

theorem containsSub_iff (t kw : List Char) :
    containsSub t kw = true ↔ ∃ i, (t.drop i).take kw.length = kw := by
  unfold containsSub
  rw [List.any_eq_true]
  constructor
  · rintro ⟨i, _, hp⟩
    exact ⟨i, by simpa [substringAt] using hp⟩
  · rintro ⟨i, h1⟩
    rcases substring_bound h1 with hnil | hle
    · refine ⟨0, List.mem_range.2 (by omega), ?_⟩
      simp [substringAt, hnil]
    · exact ⟨i, List.mem_range.2 (by omega), by simpa [substringAt] using h1⟩

/-- A raw series object returned by the Kalshi `/series` endpoint. -/
structure RawSeries where
  ticker : String
  title : String
  category : String
deriving Repr, DecidableEq

/-- The projected series dict built by `fetch_oscar_series`. -/
structure SeriesInfo where
  ticker : String
  title : String
  category : String
deriving Repr, DecidableEq

/-- An opaque market object; `fetch_markets_for_series` never inspects the
payload, it only accumulates the batches. -/
structure Market where
  payload : String
deriving Repr, DecidableEq

/-- `fetch_oscar_series` from kalshi_client.py: one cache probe, then a
single `requests.get` (no retry loop).  `cached` is the `_get_cached`
result (Python then tests it for truthiness, so a cached empty list falls
through); `resp` is the transport outcome of the single GET.  The second
component counts the HTTP requests performed. -/
def fetch_oscar_series (cached : Option (List SeriesInfo))
    (resp : Except Unit (List RawSeries)) : List SeriesInfo × ℕ :=
  if cached.getD [] ≠ [] then (cached.getD [], 0)
  else
    match resp with
    | .ok all_series =>
        ((all_series.filter fun s =>
            containsSub (lowerStr s.title.toList) "oscar".toList).map
          fun s => SeriesInfo.mk s.ticker s.title s.category, 1)
    | .error _ => ([], 1)

/-- Python `if not cursor`: `None` and the empty string are falsy. -/
def cursorFalsy : Option String → Bool
  | none => true
  | some s => s == ""

/-- Result of the `for attempt in range(max_retries)` loop of
`fetch_markets_for_series` for one page. -/
inductive PageResult where
  | finished (ms : List Market)
  | nextPage (ms : List Market) (c : String)
  | exhausted (ms : List Market)
  | noAttempt
deriving Repr, DecidableEq

/-- The retry loop of `fetch_markets_for_series` for one page.  `tr n` is
the transport outcome (batch and cursor) of the n-th GET this call makes;
`acc` the markets accumulated over previous pages; `remaining` the
attempts left (initially `max_retries`); `attempt` the Python loop index;
`r` the running request counter.  Returns the page outcome, the new
request counter, and the list of back-off sleep durations (Python sleeps
`2 ** attempt` seconds after each failed non-final attempt). -/
def attemptLoop (tr : ℕ → Except Unit (List Market × Option String))
    (acc : List Market) : ℕ → ℕ → ℕ → PageResult × ℕ × List ℕ
  | 0, _, r => (.noAttempt, r, [])
  | remaining + 1, attempt, r =>
    match tr r with
    | .ok (batch, cur) =>
        let ms := acc ++ batch
        if cursorFalsy cur then (.finished ms, r + 1, [])
        else (.nextPage ms (cur.getD ""), r + 1, [])
    | .error _ =>
        if remaining = 0 then (.exhausted acc, r + 1, [])
        else
          let rest := attemptLoop tr acc remaining (attempt + 1) (r + 1)
          (rest.1, rest.2.1, 2 ^ attempt :: rest.2.2)

/-- The `while True` pagination loop of `fetch_markets_for_series`,
with explicit fuel (`none` models Python looping without returning). -/
def fetchLoop (tr : ℕ → Except Unit (List Market × Option String))
    (max_retries : ℕ) :
    ℕ → List Market → ℕ → List ℕ → Option (List Market × ℕ × List ℕ)
  | 0, _, _, _ => none
  | fuel + 1, acc, r, sleeps =>
    match attemptLoop tr acc max_retries 0 r with
    | (.finished ms, r', s') => some (ms, r', sleeps ++ s')
    | (.exhausted ms, r', s') => some (ms, r', sleeps ++ s')
    | (.nextPage ms _, r', s') => fetchLoop tr max_retries fuel ms r' (sleeps ++ s')
    | (.noAttempt, r', s') => fetchLoop tr max_retries fuel acc r' (sleeps ++ s')

/-- `fetch_markets_for_series` from kalshi_client.py: cache probe, then the
paginated fetch with a per-page retry loop. -/
def fetch_markets_for_series (cached : Option (List Market))
    (tr : ℕ → Except Unit (List Market × Option String))
    (max_retries fuel : ℕ) : Option (List Market × ℕ × List ℕ) :=
  if cached.getD [] ≠ [] then some (cached.getD [], 0, [])
  else fetchLoop tr max_retries fuel [] 0 []

end Kalshi

/-- C10: the keyword matcher reports a keyword of length ≤ 4 as matched
exactly when it occurs in the text as a case-insensitive whole word, a
longer keyword exactly when it occurs as a case-insensitive substring, and
the empty text matches no keywords. -/
theorem match_keywords_spec (text : String) (keywords : List String) :
    Kalshi.match_keywords "" keywords = [] ∧
    ∀ kw, kw ∈ Kalshi.match_keywords text keywords ↔
      kw ∈ keywords ∧ text ≠ "" ∧
        (if kw.length ≤ 4 then Kalshi.OccursAsWholeWord text kw
          else Kalshi.OccursAsSubstring text kw) := by
  constructor
  · rfl
  · intro kw
    by_cases htext : text = ""
    · simp [Kalshi.match_keywords, htext]
    · rw [Kalshi.match_keywords, if_neg htext]
      rw [List.mem_filter]
      have hL := Kalshi.lowerStr_toList_length kw
      constructor
      · rintro ⟨hmem, hp⟩
        refine ⟨hmem, htext, ?_⟩
        by_cases hlen : kw.length ≤ 4
        · rw [if_pos hlen] at hp ⊢
          obtain ⟨i, h1, h2, h3⟩ := (Kalshi.searchWholeWord_iff _ _).1 hp
          rw [hL] at h1 h3
          exact ⟨i, h1, h2, h3⟩
        · rw [if_neg hlen] at hp ⊢
          obtain ⟨i, h1⟩ := (Kalshi.containsSub_iff _ _).1 hp
          rw [hL] at h1
          exact ⟨i, h1⟩
      · rintro ⟨hmem, -, hocc⟩
        refine ⟨hmem, ?_⟩
        by_cases hlen : kw.length ≤ 4
        · rw [if_pos hlen] at hocc ⊢
          obtain ⟨i, h1, h2, h3⟩ := hocc
          rw [← hL] at h1 h3
          exact (Kalshi.searchWholeWord_iff _ _).2 ⟨i, h1, h2, h3⟩
        · rw [if_neg hlen] at hocc ⊢
          obtain ⟨i, h1⟩ := hocc
          rw [← hL] at h1
          exact (Kalshi.containsSub_iff _ _).2 ⟨i, h1⟩

/-- Witness for `match_keywords_spec` at a concrete text: the 4-character
keyword "star" is not matched inside "stars" (no word boundary) while the
5-character keyword "align" is matched by substring containment. -/
theorem match_keywords_spec_witness :
    ("star" ∈ Kalshi.match_keywords "the stars align" ["star", "align"] ↔
      "star" ∈ ["star", "align"] ∧ ("the stars align" : String) ≠ "" ∧
        (if ("star" : String).length ≤ 4 then
          Kalshi.OccursAsWholeWord "the stars align" "star"
        else Kalshi.OccursAsSubstring "the stars align" "star")) ∧
    "star" ∉ Kalshi.match_keywords "the stars align" ["star", "align"] ∧
    "align" ∈ Kalshi.match_keywords "the stars align" ["star", "align"] := by
  refine ⟨(match_keywords_spec "the stars align" ["star", "align"]).2 "star", ?_, ?_⟩ <;>
    decide

/-- C2 counterexample: on a transport that always fails, the series-listing
fetch performs exactly one request — it is not retried 3 times — and the
markets-by-series fetch, after its retries are exhausted on the second
page, returns the first page's markets rather than an empty result. -/
theorem kalshi_retry_counterexample :
    Kalshi.fetch_oscar_series none (.error ()) = ([], 1) ∧ (1 : ℕ) ≠ 3 ∧
    Kalshi.fetch_markets_for_series none
        (fun n => if n = 0 then .ok ([Kalshi.Market.mk "m1"], some "c")
          else .error ()) 3 10 =
      some ([Kalshi.Market.mk "m1"], 4, [1, 2]) ∧
    ([Kalshi.Market.mk "m1"] : List Kalshi.Market) ≠ [] := by
  refine ⟨rfl, by decide, ?_, by decide⟩
  rfl

/-- C2 amended: the markets-by-series fetch retries each page up to 3
attempts with exponential back-off (sleeping 2^attempt between failures)
and, once the retries are exhausted, returns the markets accumulated so
far (empty only when no page succeeded) instead of propagating the error;
the series-listing fetch performs a single attempt with no retry and
degrades to the empty list on transport failure. -/
theorem kalshi_retry_behavior :
    (∀ resp : Except Unit (List Kalshi.RawSeries),
      (Kalshi.fetch_oscar_series none resp).2 = 1) ∧
    (∀ e : Unit, Kalshi.fetch_oscar_series none (.error e) = ([], 1)) ∧
    (∀ tr acc r,
      (Kalshi.attemptLoop tr acc 3 0 r).2.1 ≤ r + 3 ∧
      ((Kalshi.attemptLoop tr acc 3 0 r).2.2 = [] ∨
        (Kalshi.attemptLoop tr acc 3 0 r).2.2 = [1] ∨
        (Kalshi.attemptLoop tr acc 3 0 r).2.2 = [1, 2]) ∧
      (∀ ms, (Kalshi.attemptLoop tr acc 3 0 r).1 = .exhausted ms →
        ms = acc ∧ (Kalshi.attemptLoop tr acc 3 0 r).2.1 = r + 3 ∧
          (Kalshi.attemptLoop tr acc 3 0 r).2.2 = [1, 2])) := by
  refine ⟨?_, ?_, ?_⟩
  · intro resp
    cases resp <;> rfl
  · intro e
    rfl
  · intro tr acc r
    cases h0 : tr r with
    | ok v =>
      obtain ⟨batch, cur⟩ := v
      by_cases hc : Kalshi.cursorFalsy cur = true <;>
        simp_all [Kalshi.attemptLoop]
    | error e0 =>
      cases h1 : tr (r + 1) with
      | ok v =>
        obtain ⟨batch, cur⟩ := v
        by_cases hc : Kalshi.cursorFalsy cur = true <;>
          simp_all [Kalshi.attemptLoop]
      | error e1 =>
        cases h2 : tr (r + 2) with
        | ok v =>
          obtain ⟨batch, cur⟩ := v
          by_cases hc : Kalshi.cursorFalsy cur = true <;>
            simp_all [Kalshi.attemptLoop]
        | error e2 =>
          simp_all [Kalshi.attemptLoop]

/-- Witness for `kalshi_retry_behavior`: the always-failing transport
exhausts the three attempts, sleeps 1 then 2 seconds, and returns the
accumulated markets unchanged. -/
theorem kalshi_retry_behavior_witness :
    (Kalshi.attemptLoop (fun _ => .error ()) [Kalshi.Market.mk "p"] 3 0 0).1 =
        .exhausted [Kalshi.Market.mk "p"] ∧
      ([Kalshi.Market.mk "p"] : List Kalshi.Market) = [Kalshi.Market.mk "p"] ∧
      (Kalshi.attemptLoop (fun _ => .error ()) [Kalshi.Market.mk "p"] 3 0 0).2.1 = 0 + 3 ∧
      (Kalshi.attemptLoop (fun _ => .error ()) [Kalshi.Market.mk "p"] 3 0 0).2.2 = [1, 2] :=
  ⟨rfl,
    (kalshi_retry_behavior.2.2 (fun _ => .error ()) [Kalshi.Market.mk "p"] 0).2.2
      [Kalshi.Market.mk "p"] rfl⟩

/-! ### Template orchestrator:
src/oscars-memes/llm_pipeline/template_agents/orchestrator.py -/

namespace Orchestrator

/-- `TemplateOrchestrator.STAGES` (stage ids, in order). -/
def STAGES : List String :=
  ["visual", "slots", "irony", "metadata", "examples", "prompt", "code"]

/-- The seven agents, abstracted: each `run` call either returns a stage
output of type `α` or raises (an error string).  The `Option α` arguments
mirror the keyword arguments each agent receives (`none` models Python
`None`; `process` always passes concrete values, `process_with_updates`
passes `results.get(...)`, which along the success path is the same). -/
structure Agents (α : Type) where
  visual : Except String α
  slots : Option α → Except String α
  irony : Option α → Except String α
  metadata : Option α → Option α → Option α → Except String α
  examples : Option α → Option α → Option α → Except String α
  prompt : Option α → Option α → Option α → Option α → Option α → Except String α
  code : Option α → Option α → Option α → Except String α

/-- `TemplateProcessingResult` as assembled by the orchestrator. -/
structure ProcessingResult (α : Type) where
  visual_analysis : α
  slot_detection : α
  irony_analysis : α
  metadata : α
  examples : α
  prompt : α
  code : α
deriving Repr, DecidableEq

/-- One `ProcessingUpdate`: `stageResult` carries a completed stage's
output, `finalResult` the assembled result on the terminal update. -/
structure Update (α : Type) where
  stage : String
  status : String
  error : Option String
  progress_percent : ℕ
  stageResult : Option α
  finalResult : Option (ProcessingResult α)
deriving Repr, DecidableEq

/-- `TemplateOrchestrator.process`: sequential agent calls, the first
raised error propagates to the caller, no retry, result assembled only
after all seven stages succeed. -/
def process {α : Type} (imageExists : Bool) (ag : Agents α) :
    Except String (ProcessingResult α) :=
  if imageExists = false then .error "Template image not found"
  else
    match ag.visual with
    | .error e => .error e
    | .ok visual =>
      match ag.slots (some visual) with
      | .error e => .error e
      | .ok slots =>
        match ag.irony (some visual) with
        | .error e => .error e
        | .ok irony =>
          match ag.metadata (some visual) (some slots) (some irony) with
          | .error e => .error e
          | .ok metadata =>
            match ag.examples (some slots) (some irony) (some metadata) with
            | .error e => .error e
            | .ok examples =>
              match ag.prompt (some visual) (some slots) (some irony)
                  (some metadata) (some examples) with
              | .error e => .error e
              | .ok prompt =>
                match ag.code (some slots) (some irony) (some metadata) with
                | .error e => .error e
                | .ok code =>
                  .ok ⟨visual, slots, irony, metadata, examples, prompt, code⟩

/-- The `status="running"` update for stage index `i` (Python progress
`int(i / 7 * 100)`). -/
def runningU {α : Type} (stage : String) (i : ℕ) : Update α :=
  ⟨stage, "running", none, i * 100 / 7, none, none⟩

/-- The `status="completed"` update for stage index `i`. -/
def completedU {α : Type} (stage : String) (v : α) (i : ℕ) : Update α :=
  ⟨stage, "completed", none, (i + 1) * 100 / 7, some v, none⟩

/-- The `status="failed"` update for stage index `i` (progress stays at the
running value). -/
def failedU {α : Type} (stage : String) (e : String) (i : ℕ) : Update α :=
  ⟨stage, "failed", some e, i * 100 / 7, none, none⟩

/-- `TemplateOrchestrator.process_with_updates`, unrolled over the seven
`STAGES`: emits running/completed updates, and on the first agent error
emits a failed update and returns (the Python generator ends). -/
def process_with_updates {α : Type} (imageExists : Bool) (ag : Agents α) :
    List (Update α) :=
  if imageExists = false then
    [failedU "validation" "Template image not found" 0]
  else
    runningU "visual" 0 ::
    match ag.visual with
    | .error e => [failedU "visual" e 0]
    | .ok visual =>
      completedU "visual" visual 0 ::
      runningU "slots" 1 ::
      match ag.slots (some visual) with
      | .error e => [failedU "slots" e 1]
      | .ok slots =>
        completedU "slots" slots 1 ::
        runningU "irony" 2 ::
        match ag.irony (some visual) with
        | .error e => [failedU "irony" e 2]
        | .ok irony =>
          completedU "irony" irony 2 ::
          runningU "metadata" 3 ::
          match ag.metadata (some visual) (some slots) (some irony) with
          | .error e => [failedU "metadata" e 3]
          | .ok metadata =>
            completedU "metadata" metadata 3 ::
            runningU "examples" 4 ::
            match ag.examples (some slots) (some irony) (some metadata) with
            | .error e => [failedU "examples" e 4]
            | .ok examples =>
              completedU "examples" examples 4 ::
              runningU "prompt" 5 ::
              match ag.prompt (some visual) (some slots) (some irony)
                  (some metadata) (some examples) with
              | .error e => [failedU "prompt" e 5]
              | .ok prompt =>
                completedU "prompt" prompt 5 ::
                runningU "code" 6 ::
                match ag.code (some slots) (some irony) (some metadata) with
                | .error e => [failedU "code" e 6]
                | .ok code =>
                  completedU "code" code 6 ::
                  [⟨"complete", "completed", none, 100, none,
                    some ⟨visual, slots, irony, metadata, examples, prompt, code⟩⟩]

/-- No update is emitted after a failed one (the generator returns). -/
def noUpdateAfterFailure {α : Type} : List (Update α) → Bool
  | [] => true
  | u :: rest => if u.status == "failed" then rest.isEmpty else noUpdateAfterFailure rest

/-- Each stage is attempted at most once (no automatic retry). -/
def runningOncePerStage {α : Type} (us : List (Update α)) : Bool :=
  STAGES.all fun s =>
    decide ((us.filter fun u => u.stage == s && u.status == "running").length ≤ 1)

def hasFailed {α : Type} (us : List (Update α)) : Bool :=
  us.any fun u => u.status == "failed"

def hasComplete {α : Type} (us : List (Update α)) : Bool :=
  us.any fun u => u.stage == "complete"

/-- The error of a trailing failed update, if any. -/
def lastFailure {α : Type} (us : List (Update α)) : Option String :=
  match us.getLast? with
  | some u => if u.status == "failed" then u.error else none
  | none => none

/-- The final result of a trailing `complete` update, if any. -/
def lastComplete {α : Type} (us : List (Update α)) : Option (ProcessingResult α) :=
  match us.getLast? with
  | some u => if u.stage == "complete" then u.finalResult else none
  | none => none

def exceptIsOk {β : Type} : Except String β → Bool
  | .ok _ => true
  | .error _ => false

end Orchestrator

/-- C5: if a stage of the seven-stage pipeline raises, the update stream
stops at that stage (the failed update is the last one), no stage runs
twice (no retry), a final `complete` result is emitted exactly when the
exception-propagating `process` succeeds (so no partial result is ever
committed), a trailing failure carries exactly the error that `process`
propagates, and a trailing `complete` carries exactly the result that
`process` returns. -/
theorem orchestrator_stage_failure_aborts (α : Type) (ag : Orchestrator.Agents α) :
    Orchestrator.noUpdateAfterFailure (Orchestrator.process_with_updates true ag) = true ∧
    Orchestrator.runningOncePerStage (Orchestrator.process_with_updates true ag) = true ∧
    Orchestrator.hasComplete (Orchestrator.process_with_updates true ag) =
      Orchestrator.exceptIsOk (Orchestrator.process true ag) ∧
    Orchestrator.hasFailed (Orchestrator.process_with_updates true ag) =
      !(Orchestrator.exceptIsOk (Orchestrator.process true ag)) ∧
    (match Orchestrator.lastFailure (Orchestrator.process_with_updates true ag) with
      | some e => Orchestrator.process true ag = Except.error e
      | none =>
          Orchestrator.hasFailed (Orchestrator.process_with_updates true ag) = false) ∧
    (match Orchestrator.lastComplete (Orchestrator.process_with_updates true ag) with
      | some r => Orchestrator.process true ag = Except.ok r
      | none =>
          Orchestrator.exceptIsOk (Orchestrator.process true ag) = false) := by
  cases h1 : ag.visual with
  | error e =>
    simp only [Orchestrator.process_with_updates, Orchestrator.process, h1]
    exact ⟨rfl, rfl, rfl, rfl, rfl, rfl⟩
  | ok visual =>
  cases h2 : ag.slots (some visual) with
  | error e =>
    simp only [Orchestrator.process_with_updates, Orchestrator.process, h1, h2]
    exact ⟨rfl, rfl, rfl, rfl, rfl, rfl⟩
  | ok slots =>
  cases h3 : ag.irony (some visual) with
  | error e =>
    simp only [Orchestrator.process_with_updates, Orchestrator.process, h1, h2, h3]
    exact ⟨rfl, rfl, rfl, rfl, rfl, rfl⟩
  | ok irony =>
  cases h4 : ag.metadata (some visual) (some slots) (some irony) with
  | error e =>
    simp only [Orchestrator.process_with_updates, Orchestrator.process, h1, h2, h3, h4]
    exact ⟨rfl, rfl, rfl, rfl, rfl, rfl⟩
  | ok metadata =>
  cases h5 : ag.examples (some slots) (some irony) (some metadata) with
  | error e =>
    simp only [Orchestrator.process_with_updates, Orchestrator.process, h1, h2, h3, h4, h5]
    exact ⟨rfl, rfl, rfl, rfl, rfl, rfl⟩
  | ok examples =>
  cases h6 : ag.prompt (some visual) (some slots) (some irony) (some metadata)
      (some examples) with
  | error e =>
    simp only [Orchestrator.process_with_updates, Orchestrator.process, h1, h2, h3, h4,
      h5, h6]
    exact ⟨rfl, rfl, rfl, rfl, rfl, rfl⟩
  | ok prompt =>
  cases h7 : ag.code (some slots) (some irony) (some metadata) with
  | error e =>
    simp only [Orchestrator.process_with_updates, Orchestrator.process, h1, h2, h3, h4,
      h5, h6, h7]
    exact ⟨rfl, rfl, rfl, rfl, rfl, rfl⟩
  | ok code =>
    simp only [Orchestrator.process_with_updates, Orchestrator.process, h1, h2, h3, h4,
      h5, h6, h7]
    exact ⟨rfl, rfl, rfl, rfl, rfl, rfl⟩

/-! ### Meme generation pipeline: src/oscars-memes/llm_pipeline/pipeline.py -/

namespace MemeGen

/-- The template fields `generate_meme` uses (`templates.py` registry). -/
structure Template where
  slot_names : List String
  max_chars_per_slot : ℕ
deriving Repr, DecidableEq

/-- The LLM structured-output object: `hasattr`/`getattr` as a partial map
from slot names to text, plus the optional `reasoning` attribute. -/
structure LLMResult where
  slot : String → Option String
  reasoning : Option String

/-- `templates.get_template`: raises `ValueError` on an unknown id. -/
def get_template (templates : String → Option Template) (template_id : String) :
    Except String Template :=
  match templates template_id with
  | none => .error ("Unknown template: " ++ template_id)
  | some t => .ok t

/-- `MemeGenerationPipeline._get_output_model`: raises when the id is not
in `TEMPLATE_OUTPUT_MODELS`. -/
def get_output_model (hasOutputModel : String → Bool) (template_id : String) :
    Except String Unit :=
  if hasOutputModel template_id then .ok ()
  else .error ("No output model for template: " ++ template_id)

/-- `MemeGenerationPipeline._extract_text_content`: the slots of the
template that the result object has, with their text. -/
def extract_text_content (result : LLMResult) (template : Template) :
    List (String × String) :=
  template.slot_names.filterMap fun s => (result.slot s).map fun t => (s, t)

/-- `MemeGenerationPipeline._calculate_confidence`: start from 1.0,
subtract 0.2 per slot whose text exceeds `max_chars_per_slot` and 0.1 per
slot whose text is shorter than 5 characters, clamp to [0, 1]. -/
def calculate_confidence (result : LLMResult) (template : Template) : ℚ :=
  let score := template.slot_names.foldl
    (fun sc s =>
      match result.slot s with
      | some text =>
          let sc1 := if text.length > template.max_chars_per_slot then sc - 1/5 else sc
          if text.length < 5 then sc1 - 1/10 else sc1
      | none => sc) 1
  max 0 (min 1 score)

/-- `GeneratedMeme` (llm_pipeline/models.py). -/
structure GeneratedMeme where
  template_id : String
  category : String
  text_content : List (String × String)
  source_comments : List String
  confidence_score : ℚ
  reasoning : String

/-- `MemeGenerationPipeline.generate_meme`: template and output-model
lookups can raise; otherwise the LLM result (`llm`, the outcome of the
`_call_llm` oracle) is packaged into a `GeneratedMeme` unconditionally.
`source_comments` is `context.source_comments[:3]`. -/
def generate_meme (templates : String → Option Template)
    (hasOutputModel : String → Bool) (llm : LLMResult)
    (template_id category : String) (source_comments : List String) :
    Except String GeneratedMeme :=
  match get_template templates template_id with
  | .error e => .error e
  | .ok template =>
    match get_output_model hasOutputModel template_id with
    | .error e => .error e
    | .ok _ =>
      .ok { template_id := template_id
            category := category
            text_content := extract_text_content llm template
            source_comments := source_comments.take 3
            confidence_score := calculate_confidence llm template
            reasoning := llm.reasoning.getD "" }

/-- Slots whose text exceeds the template's per-slot maximum. -/
def overflowCount (slots : List String) (slot : String → Option String)
    (maxc : ℕ) : ℕ :=
  (slots.filter fun s =>
    match slot s with
    | some t => decide (t.length > maxc)
    | none => false).length

/-- Slots whose text is shorter than 5 characters. -/
def shortCount (slots : List String) (slot : String → Option String) : ℕ :=
  (slots.filter fun s =>
    match slot s with
    | some t => decide (t.length < 5)
    | none => false).length

theorem confidence_foldl (slots : List String) (slot : String → Option String)
    (maxc : ℕ) (init : ℚ) :
    slots.foldl
      (fun sc s =>
        match slot s with
        | some text =>
            let sc1 := if text.length > maxc then sc - 1/5 else sc
            if text.length < 5 then sc1 - 1/10 else sc1
        | none => sc) init =
      init - overflowCount slots slot maxc * (1/5) - shortCount slots slot * (1/10) := by
  induction slots generalizing init with
  | nil => simp [overflowCount, shortCount]
  | cons s rest ih =>
    rw [List.foldl_cons, ih]
    cases hs : slot s with
    | none => simp [overflowCount, shortCount, List.filter_cons, hs]
    | some text =>
      by_cases hov : text.length > maxc <;> by_cases hsh : text.length < 5 <;>
        simp [overflowCount, shortCount, List.filter_cons, hs, hov, hsh] <;>
        push_cast <;> ring

end MemeGen

/-- C6: when the template id resolves and has an output model,
`generate_meme` always returns a `GeneratedMeme`; an overflowing slot text
is kept verbatim in `text_content`, and the confidence score equals
1 minus 0.2 per overflowing slot (and 0.1 per too-short slot) clamped to
[0, 1] — the length limit is advisory, never a rejection. -/
theorem generate_meme_advisory_limit (templates : String → Option MemeGen.Template)
    (hasOutputModel : String → Bool) (llm : MemeGen.LLMResult)
    (template_id category : String) (source_comments : List String)
    (tmpl : MemeGen.Template) (h : templates template_id = some tmpl)
    (hm : hasOutputModel template_id = true) :
    ∃ meme, MemeGen.generate_meme templates hasOutputModel llm template_id category
        source_comments = .ok meme ∧
      meme.text_content = MemeGen.extract_text_content llm tmpl ∧
      (∀ s t, s ∈ tmpl.slot_names → llm.slot s = some t →
        (s, t) ∈ meme.text_content) ∧
      meme.confidence_score =
        max 0 (min 1 ((1 : ℚ) -
          (MemeGen.overflowCount tmpl.slot_names llm.slot tmpl.max_chars_per_slot : ℚ) *
            (1/5) -
          (MemeGen.shortCount tmpl.slot_names llm.slot : ℚ) * (1/10))) ∧
      0 ≤ meme.confidence_score ∧ meme.confidence_score ≤ 1 := by
  refine ⟨{ template_id := template_id, category := category
            text_content := MemeGen.extract_text_content llm tmpl
            source_comments := source_comments.take 3
            confidence_score := MemeGen.calculate_confidence llm tmpl
            reasoning := llm.reasoning.getD "" }, ?_, rfl, ?_, ?_, ?_, ?_⟩
  · simp only [MemeGen.generate_meme, MemeGen.get_template, h,
      MemeGen.get_output_model, hm, if_true]
  · intro s t hs ht
    exact List.mem_filterMap.2 ⟨s, hs, by rw [ht]; rfl⟩
  · show MemeGen.calculate_confidence llm tmpl = _
    rw [MemeGen.calculate_confidence, MemeGen.confidence_foldl]
  · show (0 : ℚ) ≤ MemeGen.calculate_confidence llm tmpl
    rw [MemeGen.calculate_confidence]
    exact le_max_left 0 _
  · show MemeGen.calculate_confidence llm tmpl ≤ 1
    rw [MemeGen.calculate_confidence]
    exact max_le (by norm_num) (min_le_left 1 _)

/-- Witness for `generate_meme_advisory_limit`: a 10-character text in a
slot capped at 5 characters is still returned, with confidence 0.8. -/
theorem generate_meme_advisory_limit_witness :
    ((fun _ : String => some (MemeGen.Template.mk ["top"] 5)) "t" =
        some (MemeGen.Template.mk ["top"] 5) ∧
      (fun _ : String => true) "t" = true) ∧
    ∃ meme, MemeGen.generate_meme (fun _ => some (MemeGen.Template.mk ["top"] 5))
        (fun _ => true) (MemeGen.LLMResult.mk (fun _ => some "abcdefghij") none)
        "t" "pro_obaa" [] = .ok meme ∧
      meme.text_content = MemeGen.extract_text_content
        (MemeGen.LLMResult.mk (fun _ => some "abcdefghij") none)
        (MemeGen.Template.mk ["top"] 5) ∧
      (∀ s t, s ∈ (MemeGen.Template.mk ["top"] 5).slot_names →
        (MemeGen.LLMResult.mk (fun _ => some "abcdefghij") none).slot s = some t →
        (s, t) ∈ meme.text_content) ∧
      meme.confidence_score =
        max 0 (min 1 ((1 : ℚ) -
          (MemeGen.overflowCount ["top"] (fun _ => some "abcdefghij") 5 : ℚ) * (1/5) -
          (MemeGen.shortCount ["top"] (fun _ => some "abcdefghij") : ℚ) * (1/10))) ∧
      0 ≤ meme.confidence_score ∧ meme.confidence_score ≤ 1 :=
  ⟨⟨rfl, rfl⟩,
    generate_meme_advisory_limit (fun _ => some (MemeGen.Template.mk ["top"] 5))
      (fun _ => true) (MemeGen.LLMResult.mk (fun _ => some "abcdefghij") none)
      "t" "pro_obaa" [] (MemeGen.Template.mk ["top"] 5) rfl rfl⟩

/-! ### Template integrator:
src/oscars-memes/llm_pipeline/template_integrator.py -/

namespace Integrator

/-- The integrator's file-system view: content of each target file, `none`
when the file does not exist. -/
structure FS where
  files : String → Option String

/-- Observable file-system effects of an integrator run (backup copies go
to the separate backup directory and never shadow target files). -/
inductive Event where
  | backup (file : String)
  | write (file : String) (content : String)
deriving Repr, DecidableEq

/-- Oracles for the external components of the integrator: `ast.parse`
(`validate`) and the `re`/`str.index` searches for the insertion points.
Each find-oracle returns the position the corresponding pattern search
yields on the given content, `none` when the pattern is absent;
`findGenImport`/`findPipImport` return `(end_of_group_1, start_of_group_2)`
of the import-block regexes; `extractModelName` is the
`r":\s*(\w+Output)"` search on the output-models entry. -/
structure Oracles where
  validate : String → Bool
  findTemplates : String → Option ℕ
  findPrompts : String → Option ℕ
  findModelsMarker : String → Option ℕ
  findGenAll : String → Option ℕ
  findIfMain : String → Option ℕ
  findGenImport : String → Option (ℕ × ℕ)
  findGenerators : String → Option ℕ
  extractModelName : String → Option String
  findPipImport : String → Option (ℕ × ℕ)
  findOutputModels : String → Option ℕ

/-- The fields of `TemplateProcessingResult` the integrator consumes.  The
fragment fields stand for the rendered f-strings (`template_str`,
`prompt_str`) and the generated code blocks; the insertions treat them as
atomic text. -/
structure ResultData where
  templateEntryFragment : String
  promptFragment : String
  pydantic_model : String
  generator_function : String
  template_generators_entry : String
  output_models_entry : String
  generator_function_name : String

/-- `create_backup` followed by `read_text`: `shutil.copy2` raises when
the source file is missing, otherwise a backup copy is made and the
content read. -/
def readWithBackup (f : String) (fs : FS) : List Event × Except String String :=
  match fs.files f with
  | none => ([], .error ("FileNotFoundError: " ++ f))
  | some content => ([.backup f], .ok content)

/-- `path.write_text new_content` on the file-system view. -/
def writeFile (f : String) (c : String) (fs : FS) : FS :=
  ⟨fun g => if g = f then some c else fs.files g⟩

/-- `TemplateIntegrator.add_to_templates`: backup, locate the closing brace
of `MEME_TEMPLATES`, splice the rendered entry, validate, write — raising
on a failed validation or a missing pattern. -/
def add_to_templates (o : Oracles) (r : ResultData) (fs : FS) :
    List Event × Except String FS :=
  match readWithBackup "templates.py" fs with
  | (evs, .error e) => (evs, .error e)
  | (evs, .ok content) =>
    match o.findTemplates content with
    | some pos =>
        let nc := content.take pos ++ r.templateEntryFragment ++ content.drop pos
        if o.validate nc then
          (evs ++ [.write "templates.py" nc], .ok (writeFile "templates.py" nc fs))
        else (evs, .error "Generated template entry creates invalid Python syntax")
    | none => (evs, .error "Could not find MEME_TEMPLATES dict in templates.py")

/-- `TemplateIntegrator.add_to_prompts`. -/
def add_to_prompts (o : Oracles) (r : ResultData) (fs : FS) :
    List Event × Except String FS :=
  match readWithBackup "prompts.py" fs with
  | (evs, .error e) => (evs, .error e)
  | (evs, .ok content) =>
    match o.findPrompts content with
    | some pos =>
        let nc := content.take pos ++ r.promptFragment ++ content.drop pos
        if o.validate nc then
          (evs ++ [.write "prompts.py" nc], .ok (writeFile "prompts.py" nc fs))
        else (evs, .error "Generated prompt entry creates invalid Python syntax")
    | none => (evs, .error "Could not find TEMPLATE_SPECIFIC_PROMPTS dict in prompts.py")

/-- The `new_content` assembled by `add_to_models`: insert before the
batch-models marker, falling back to appending at the end of the file. -/
def modelsNewContent (o : Oracles) (r : ResultData) (content : String) : String :=
  match o.findModelsMarker content with
  | some pos =>
      content.take pos ++ "\n" ++ r.pydantic_model ++ "\n\n\n" ++ content.drop pos
  | none => content ++ "\n\n" ++ r.pydantic_model ++ "\n"

/-- `TemplateIntegrator.add_to_models`. -/
def add_to_models (o : Oracles) (r : ResultData) (fs : FS) :
    List Event × Except String FS :=
  match readWithBackup "models.py" fs with
  | (evs, .error e) => (evs, .error e)
  | (evs, .ok content) =>
    let nc := modelsNewContent o r content
    if o.validate nc then
      (evs ++ [.write "models.py" nc], .ok (writeFile "models.py" nc fs))
    else (evs, .error "Generated Pydantic model creates invalid Python syntax")

/-- The `new_content` assembled by `add_to_meme_generator`: insert before
`generate_all_memes`, falling back to before the `__main__` guard, then to
the end of the file. -/
def memeGenNewContent (o : Oracles) (r : ResultData) (content : String) : String :=
  match o.findGenAll content with
  | some pos =>
      content.take pos ++ "\n" ++ r.generator_function ++ "\n\n\n" ++ content.drop pos
  | none =>
    match o.findIfMain content with
    | some pos =>
        content.take pos ++ "\n" ++ r.generator_function ++ "\n\n\n" ++
          content.drop pos
    | none => content ++ "\n\n" ++ r.generator_function ++ "\n"

/-- `TemplateIntegrator.add_to_meme_generator`. -/
def add_to_meme_generator (o : Oracles) (r : ResultData) (fs : FS) :
    List Event × Except String FS :=
  match readWithBackup "meme_generator.py" fs with
  | (evs, .error e) => (evs, .error e)
  | (evs, .ok content) =>
    let nc := memeGenNewContent o r content
    if o.validate nc then
      (evs ++ [.write "meme_generator.py" nc], .ok (writeFile "meme_generator.py" nc fs))
    else (evs, .error "Generated function creates invalid Python syntax")

/-- The import-statement splice of `update_generator_mapping`: add the new
generator function to the `from meme_generator import (...)` block when
the regex matches. -/
def spliceGenImport (o : Oracles) (r : ResultData) (content : String) : String :=
  match o.findGenImport content with
  | some (e1, s2) =>
      content.take e1 ++ "    " ++ r.generator_function_name ++ ",\n    " ++
        content.drop s2
  | none => content

/-- The import-statement splice of `update_pipeline_mapping`: add the new
output model to the `from .models import (...)` block when the model name
can be extracted and the regex matches. -/
def splicePipImport (o : Oracles) (r : ResultData) (content : String) : String :=
  match o.extractModelName r.output_models_entry with
  | some name =>
    match o.findPipImport content with
    | some (e1, s2) => content.take e1 ++ ",\n    " ++ name ++ content.drop s2
    | none => content
  | none => content

/-- `TemplateIntegrator.update_generator_mapping`: returns silently when
`generator.py` is missing, when the `TEMPLATE_GENERATORS` pattern is
absent, or — unlike the four insertion methods above — when the spliced
content fails syntax validation (the write is skipped without raising). -/
def update_generator_mapping (o : Oracles) (r : ResultData) (fs : FS) :
    List Event × Except String FS :=
  match fs.files "generator.py" with
  | none => ([], .ok fs)
  | some content =>
    let content1 := spliceGenImport o r content
    match o.findGenerators content1 with
    | some pos =>
        let nc := content1.take pos ++ "    " ++ r.template_generators_entry ++ "\n" ++
          content1.drop pos
        if o.validate nc then
          ([.backup "generator.py", .write "generator.py" nc],
            .ok (writeFile "generator.py" nc fs))
        else ([.backup "generator.py"], .ok fs)
    | none => ([.backup "generator.py"], .ok fs)

/-- `TemplateIntegrator.update_pipeline_mapping`: same silent-skip shape as
`update_generator_mapping`, with the import splice only performed when a
`*Output` model name can be extracted from the entry. -/
def update_pipeline_mapping (o : Oracles) (r : ResultData) (fs : FS) :
    List Event × Except String FS :=
  match fs.files "pipeline.py" with
  | none => ([], .ok fs)
  | some content =>
    let content1 := splicePipImport o r content
    match o.findOutputModels content1 with
    | some pos =>
        let nc := content1.take pos ++ "    " ++ r.output_models_entry ++ "\n" ++
          content1.drop pos
        if o.validate nc then
          ([.backup "pipeline.py", .write "pipeline.py" nc],
            .ok (writeFile "pipeline.py" nc fs))
        else ([.backup "pipeline.py"], .ok fs)
    | none => ([.backup "pipeline.py"], .ok fs)

/-- A value of the per-artifact status dict: Python `True`/`False` or the
captured error message string. -/
inductive StatusV where
  | boolVal (b : Bool)
  | msg (s : String)
deriving Repr, DecidableEq

/-- The status dict of `TemplateIntegrator.integrate` (every key is
initialised to `False` before the six try/except blocks run). -/
structure Status where
  templates : StatusV
  prompts : StatusV
  models : StatusV
  meme_generator : StatusV
  generator : StatusV
  pipeline : StatusV
  image_copy : StatusV
deriving Repr, DecidableEq

/-- One `try: step; status[k] = True; except Exception as e: status[k] =
str(e)` block: the step's events always happen; on an exception the
file-system state is whatever the step left (no write occurred). -/
def tryStep (step : FS → List Event × Except String FS) (fs : FS) :
    StatusV × FS × List Event :=
  match (step fs).2 with
  | .ok fs1 => (.boolVal true, fs1, (step fs).1)
  | .error e => (.msg e, fs, (step fs).1)

/-- `TemplateIntegrator.integrate`: the six insertions are attempted in
sequence, each inside its own try/except; `copy_image` is accepted but
never read, and the `image_copy` key keeps its initial `False`. -/
def integrate (o : Oracles) (r : ResultData) (copy_image : Bool) (fs : FS) :
    Status × FS × List Event :=
  let s1 := tryStep (add_to_templates o r) fs
  let s2 := tryStep (add_to_prompts o r) s1.2.1
  let s3 := tryStep (add_to_models o r) s2.2.1
  let s4 := tryStep (add_to_meme_generator o r) s3.2.1
  let s5 := tryStep (update_generator_mapping o r) s4.2.1
  let s6 := tryStep (update_pipeline_mapping o r) s5.2.1
  (⟨s1.1, s2.1, s3.1, s4.1, s5.1, s6.1, .boolVal false⟩,
    s6.2.1,
    s1.2.2 ++ s2.2.2 ++ s3.2.2 ++ s4.2.2 ++ s5.2.2 ++ s6.2.2)

/-- Control-flow shape of `add_to_templates`: either it raises having made
no backup (missing file) or only a backup (pattern missing / invalid
syntax), or it backs up and then writes a content it validated. -/
theorem add_to_templates_cases (o : Oracles) (r : ResultData) (fs : FS) :
    ((add_to_templates o r fs).1 = [] ∧ ∃ e, (add_to_templates o r fs).2 = .error e) ∨
    ((add_to_templates o r fs).1 = [.backup "templates.py"] ∧
      ∃ e, (add_to_templates o r fs).2 = .error e) ∨
    (∃ nc, (add_to_templates o r fs).1 =
        [.backup "templates.py", .write "templates.py" nc] ∧
      o.validate nc = true ∧
      (add_to_templates o r fs).2 = .ok (writeFile "templates.py" nc fs)) := by
  cases hc : fs.files "templates.py" with
  | none =>
    left
    simp [add_to_templates, readWithBackup, hc]
  | some content =>
    cases hp : o.findTemplates content with
    | none =>
      right; left
      simp [add_to_templates, readWithBackup, hc, hp]
    | some pos =>
      by_cases hv :
          o.validate (content.take pos ++ r.templateEntryFragment ++ content.drop pos) =
            true
      · right; right
        exact ⟨_, by simp [add_to_templates, readWithBackup, hc, hp, hv], hv,
          by simp [add_to_templates, readWithBackup, hc, hp, hv]⟩
      · right; left
        simp [add_to_templates, readWithBackup, hc, hp, hv]

/-- Control-flow shape of `add_to_prompts` (see `add_to_templates_cases`). -/
theorem add_to_prompts_cases (o : Oracles) (r : ResultData) (fs : FS) :
    ((add_to_prompts o r fs).1 = [] ∧ ∃ e, (add_to_prompts o r fs).2 = .error e) ∨
    ((add_to_prompts o r fs).1 = [.backup "prompts.py"] ∧
      ∃ e, (add_to_prompts o r fs).2 = .error e) ∨
    (∃ nc, (add_to_prompts o r fs).1 =
        [.backup "prompts.py", .write "prompts.py" nc] ∧
      o.validate nc = true ∧
      (add_to_prompts o r fs).2 = .ok (writeFile "prompts.py" nc fs)) := by
  cases hc : fs.files "prompts.py" with
  | none =>
    left
    simp [add_to_prompts, readWithBackup, hc]
  | some content =>
    cases hp : o.findPrompts content with
    | none =>
      right; left
      simp [add_to_prompts, readWithBackup, hc, hp]
    | some pos =>
      by_cases hv :
          o.validate (content.take pos ++ r.promptFragment ++ content.drop pos) = true
      · right; right
        exact ⟨_, by simp [add_to_prompts, readWithBackup, hc, hp, hv], hv,
          by simp [add_to_prompts, readWithBackup, hc, hp, hv]⟩
      · right; left
        simp [add_to_prompts, readWithBackup, hc, hp, hv]

/-- Control-flow shape of `add_to_models` (see `add_to_templates_cases`;
the fallback branch means a missing marker is not an error here). -/
theorem add_to_models_cases (o : Oracles) (r : ResultData) (fs : FS) :
    ((add_to_models o r fs).1 = [] ∧ ∃ e, (add_to_models o r fs).2 = .error e) ∨
    ((add_to_models o r fs).1 = [.backup "models.py"] ∧
      ∃ e, (add_to_models o r fs).2 = .error e) ∨
    (∃ nc, (add_to_models o r fs).1 =
        [.backup "models.py", .write "models.py" nc] ∧
      o.validate nc = true ∧
      (add_to_models o r fs).2 = .ok (writeFile "models.py" nc fs)) := by
  cases hc : fs.files "models.py" with
  | none =>
    left
    simp [add_to_models, readWithBackup, hc]
  | some content =>
    by_cases hv : o.validate (modelsNewContent o r content) = true
    · right; right
      exact ⟨_, by simp [add_to_models, readWithBackup, hc, hv], hv,
        by simp [add_to_models, readWithBackup, hc, hv]⟩
    · right; left
      simp [add_to_models, readWithBackup, hc, hv]

/-- Control-flow shape of `add_to_meme_generator`. -/
theorem add_to_meme_generator_cases (o : Oracles) (r : ResultData) (fs : FS) :
    ((add_to_meme_generator o r fs).1 = [] ∧
      ∃ e, (add_to_meme_generator o r fs).2 = .error e) ∨
    ((add_to_meme_generator o r fs).1 = [.backup "meme_generator.py"] ∧
      ∃ e, (add_to_meme_generator o r fs).2 = .error e) ∨
    (∃ nc, (add_to_meme_generator o r fs).1 =
        [.backup "meme_generator.py", .write "meme_generator.py" nc] ∧
      o.validate nc = true ∧
      (add_to_meme_generator o r fs).2 = .ok (writeFile "meme_generator.py" nc fs)) := by
  cases hc : fs.files "meme_generator.py" with
  | none =>
    left
    simp [add_to_meme_generator, readWithBackup, hc]
  | some content =>
    by_cases hv : o.validate (memeGenNewContent o r content) = true
    · right; right
      exact ⟨_, by simp [add_to_meme_generator, readWithBackup, hc, hv], hv,
        by simp [add_to_meme_generator, readWithBackup, hc, hv]⟩
    · right; left
      simp [add_to_meme_generator, readWithBackup, hc, hv]

/-- Control-flow shape of `update_generator_mapping`: it never raises; on
a missing file nothing happens, otherwise after the backup the write
happens only when the spliced content validates. -/
theorem update_generator_mapping_cases (o : Oracles) (r : ResultData) (fs : FS) :
    ((update_generator_mapping o r fs).1 = [] ∧
      (update_generator_mapping o r fs).2 = .ok fs) ∨
    ((update_generator_mapping o r fs).1 = [.backup "generator.py"] ∧
      (update_generator_mapping o r fs).2 = .ok fs) ∨
    (∃ nc, (update_generator_mapping o r fs).1 =
        [.backup "generator.py", .write "generator.py" nc] ∧
      o.validate nc = true ∧
      (update_generator_mapping o r fs).2 = .ok (writeFile "generator.py" nc fs)) := by
  cases hc : fs.files "generator.py" with
  | none =>
    left
    simp [update_generator_mapping, hc]
  | some content =>
    cases hp : o.findGenerators (spliceGenImport o r content) with
    | none =>
      right; left
      simp [update_generator_mapping, hc, hp]
    | some pos =>
      by_cases hv :
          o.validate ((spliceGenImport o r content).take pos ++ "    " ++
            r.template_generators_entry ++ "\n" ++
            (spliceGenImport o r content).drop pos) = true
      · right; right
        exact ⟨_, by simp [update_generator_mapping, hc, hp, hv], hv,
          by simp [update_generator_mapping, hc, hp, hv]⟩
      · right; left
        simp [update_generator_mapping, hc, hp, hv]

/-- Control-flow shape of `update_pipeline_mapping`: same as
`update_generator_mapping_cases`. -/
theorem update_pipeline_mapping_cases (o : Oracles) (r : ResultData) (fs : FS) :
    ((update_pipeline_mapping o r fs).1 = [] ∧
      (update_pipeline_mapping o r fs).2 = .ok fs) ∨
    ((update_pipeline_mapping o r fs).1 = [.backup "pipeline.py"] ∧
      (update_pipeline_mapping o r fs).2 = .ok fs) ∨
    (∃ nc, (update_pipeline_mapping o r fs).1 =
        [.backup "pipeline.py", .write "pipeline.py" nc] ∧
      o.validate nc = true ∧
      (update_pipeline_mapping o r fs).2 = .ok (writeFile "pipeline.py" nc fs)) := by
  cases hc : fs.files "pipeline.py" with
  | none =>
    left
    simp [update_pipeline_mapping, hc]
  | some content =>
    cases hp : o.findOutputModels (splicePipImport o r content) with
    | none =>
      right; left
      simp [update_pipeline_mapping, hc, hp]
    | some pos =>
      by_cases hv :
          o.validate ((splicePipImport o r content).take pos ++ "    " ++
            r.output_models_entry ++ "\n" ++
            (splicePipImport o r content).drop pos) = true
      · right; right
        exact ⟨_, by simp [update_pipeline_mapping, hc, hp, hv], hv,
          by simp [update_pipeline_mapping, hc, hp, hv]⟩
      · right; left
        simp [update_pipeline_mapping, hc, hp, hv]

/-- Collapsed result shape used by the preservation lemmas: an operation
raises, leaves the state untouched, or writes exactly its own file. -/
def ResultShape (step : FS → List Event × Except String FS) (file : String)
    (fs : FS) : Prop :=
  (∃ e, (step fs).2 = .error e) ∨ (step fs).2 = .ok fs ∨
    ∃ nc, (step fs).2 = .ok (writeFile file nc fs)

/-- Collapsed event shape: each operation emits nothing, a lone backup of
its file, or a backup of its file followed by a single validated write of
that same file. -/
def EventShape (o : Oracles) (step : FS → List Event × Except String FS)
    (file : String) (fs : FS) : Prop :=
  (step fs).1 = [] ∨ (step fs).1 = [.backup file] ∨
    ∃ nc, (step fs).1 = [.backup file, .write file nc] ∧ o.validate nc = true

theorem add_to_templates_shapes (o : Oracles) (r : ResultData) (fs : FS) :
    ResultShape (add_to_templates o r) "templates.py" fs ∧
      EventShape o (add_to_templates o r) "templates.py" fs := by
  rcases add_to_templates_cases o r fs with ⟨hev, he⟩ | ⟨hev, he⟩ | ⟨nc, hev, hv, hok⟩
  · exact ⟨Or.inl he, Or.inl hev⟩
  · exact ⟨Or.inl he, Or.inr (Or.inl hev)⟩
  · exact ⟨Or.inr (Or.inr ⟨nc, hok⟩), Or.inr (Or.inr ⟨nc, hev, hv⟩)⟩

theorem add_to_prompts_shapes (o : Oracles) (r : ResultData) (fs : FS) :
    ResultShape (add_to_prompts o r) "prompts.py" fs ∧
      EventShape o (add_to_prompts o r) "prompts.py" fs := by
  rcases add_to_prompts_cases o r fs with ⟨hev, he⟩ | ⟨hev, he⟩ | ⟨nc, hev, hv, hok⟩
  · exact ⟨Or.inl he, Or.inl hev⟩
  · exact ⟨Or.inl he, Or.inr (Or.inl hev)⟩
  · exact ⟨Or.inr (Or.inr ⟨nc, hok⟩), Or.inr (Or.inr ⟨nc, hev, hv⟩)⟩

theorem add_to_models_shapes (o : Oracles) (r : ResultData) (fs : FS) :
    ResultShape (add_to_models o r) "models.py" fs ∧
      EventShape o (add_to_models o r) "models.py" fs := by
  rcases add_to_models_cases o r fs with ⟨hev, he⟩ | ⟨hev, he⟩ | ⟨nc, hev, hv, hok⟩
  · exact ⟨Or.inl he, Or.inl hev⟩
  · exact ⟨Or.inl he, Or.inr (Or.inl hev)⟩
  · exact ⟨Or.inr (Or.inr ⟨nc, hok⟩), Or.inr (Or.inr ⟨nc, hev, hv⟩)⟩

theorem add_to_meme_generator_shapes (o : Oracles) (r : ResultData) (fs : FS) :
    ResultShape (add_to_meme_generator o r) "meme_generator.py" fs ∧
      EventShape o (add_to_meme_generator o r) "meme_generator.py" fs := by
  rcases add_to_meme_generator_cases o r fs with ⟨hev, he⟩ | ⟨hev, he⟩ | ⟨nc, hev, hv, hok⟩
  · exact ⟨Or.inl he, Or.inl hev⟩
  · exact ⟨Or.inl he, Or.inr (Or.inl hev)⟩
  · exact ⟨Or.inr (Or.inr ⟨nc, hok⟩), Or.inr (Or.inr ⟨nc, hev, hv⟩)⟩

theorem update_generator_mapping_shapes (o : Oracles) (r : ResultData) (fs : FS) :
    ResultShape (update_generator_mapping o r) "generator.py" fs ∧
      EventShape o (update_generator_mapping o r) "generator.py" fs := by
  rcases update_generator_mapping_cases o r fs with ⟨hev, he⟩ | ⟨hev, he⟩ | ⟨nc, hev, hv, hok⟩
  · exact ⟨Or.inr (Or.inl he), Or.inl hev⟩
  · exact ⟨Or.inr (Or.inl he), Or.inr (Or.inl hev)⟩
  · exact ⟨Or.inr (Or.inr ⟨nc, hok⟩), Or.inr (Or.inr ⟨nc, hev, hv⟩)⟩

theorem update_pipeline_mapping_shapes (o : Oracles) (r : ResultData) (fs : FS) :
    ResultShape (update_pipeline_mapping o r) "pipeline.py" fs ∧
      EventShape o (update_pipeline_mapping o r) "pipeline.py" fs := by
  rcases update_pipeline_mapping_cases o r fs with ⟨hev, he⟩ | ⟨hev, he⟩ | ⟨nc, hev, hv, hok⟩
  · exact ⟨Or.inr (Or.inl he), Or.inl hev⟩
  · exact ⟨Or.inr (Or.inl he), Or.inr (Or.inl hev)⟩
  · exact ⟨Or.inr (Or.inr ⟨nc, hok⟩), Or.inr (Or.inr ⟨nc, hev, hv⟩)⟩

theorem tryStep_events (step : FS → List Event × Except String FS) (fs : FS) :
    (tryStep step fs).2.2 = (step fs).1 := by
  cases h : (step fs).2 <;> simp [tryStep, h]

theorem tryStep_status_ok_or_msg (step : FS → List Event × Except String FS) (fs : FS) :
    (tryStep step fs).1 = .boolVal true ∨ ∃ e, (tryStep step fs).1 = .msg e := by
  cases h : (step fs).2 with
  | ok fs1 => left; simp [tryStep, h]
  | error e => right; exact ⟨e, by simp [tryStep, h]⟩

/-- A step whose result has the collapsed shape leaves every other file's
content alone, also through the try/except wrapper. -/
theorem tryStep_preserves (step : FS → List Event × Except String FS) (file : String)
    (fs : FS) (g : String) (hg : g ≠ file) (h : ResultShape step file fs) :
    ((tryStep step fs).2.1).files g = fs.files g := by
  rcases h with ⟨e, he⟩ | hok | ⟨nc, hnc⟩
  · rw [tryStep, he]
  · rw [tryStep, hok]
  · rw [tryStep, hnc]
    simp [writeFile, hg]

/-- The backup names accumulated while scanning an event list. -/
def seenAfter (seen : List String) : List Event → List String
  | [] => seen
  | .backup f :: rest => seenAfter (f :: seen) rest
  | .write _ _ :: rest => seenAfter seen rest

/-- Every write is of a file already backed up earlier in the list. -/
def goOk (seen : List String) : List Event → Bool
  | [] => true
  | .backup f :: rest => goOk (f :: seen) rest
  | .write f _ :: rest => seen.contains f && goOk seen rest

def opEventsOk (evs : List Event) : Bool := goOk [] evs

theorem goOk_append (xs ys : List Event) (seen : List String) :
    goOk seen (xs ++ ys) = (goOk seen xs && goOk (seenAfter seen xs) ys) := by
  induction xs generalizing seen with
  | nil => simp [goOk, seenAfter]
  | cons ev rest ih =>
    cases ev with
    | backup f => simp [goOk, seenAfter, ih]
    | write f c => simp [goOk, seenAfter, ih, Bool.and_assoc]

theorem goOk_mono (evs : List Event) :
    ∀ s1 s2 : List String, (∀ f, s1.contains f = true → s2.contains f = true) →
      goOk s1 evs = true → goOk s2 evs = true := by
  induction evs with
  | nil => intro s1 s2 _ _; rfl
  | cons ev rest ih =>
    intro s1 s2 hsub h
    cases ev with
    | backup f =>
      simp only [goOk] at h ⊢
      refine ih (f :: s1) (f :: s2) ?_ h
      intro g hg
      simp only [List.contains_cons, Bool.or_eq_true] at hg ⊢
      rcases hg with hg | hg
      · exact Or.inl hg
      · exact Or.inr (hsub g hg)
    | write f c =>
      simp only [goOk, Bool.and_eq_true] at h ⊢
      exact ⟨hsub f h.1, ih s1 s2 hsub h.2⟩

theorem opEventsOk_append (xs ys : List Event) (hx : opEventsOk xs = true)
    (hy : opEventsOk ys = true) : opEventsOk (xs ++ ys) = true := by
  unfold opEventsOk at *
  rw [goOk_append, hx, Bool.true_and]
  refine goOk_mono ys [] _ ?_ hy
  intro f hf
  simp at hf

theorem opEventsOk_of_event_shape {o : Oracles} {step : FS → List Event × Except String FS}
    {file : String} {fs : FS} (h : EventShape o step file fs) :
    opEventsOk (step fs).1 = true := by
  rcases h with hev | hev | ⟨nc, hev, -⟩ <;> rw [hev] <;> simp [opEventsOk, goOk]

/-- Every write event carries content the syntax oracle accepted. -/
def writesValidated (validate : String → Bool) (evs : List Event) : Bool :=
  evs.all fun ev =>
    match ev with
    | .write _ c => validate c
    | .backup _ => true

theorem writesValidated_append (validate : String → Bool) (xs ys : List Event)
    (hx : writesValidated validate xs = true) (hy : writesValidated validate ys = true) :
    writesValidated validate (xs ++ ys) = true := by
  unfold writesValidated at *
  rw [List.all_append, hx, hy]
  rfl

theorem writesValidated_of_event_shape {o : Oracles}
    {step : FS → List Event × Except String FS} {file : String} {fs : FS}
    (h : EventShape o step file fs) :
    writesValidated o.validate (step fs).1 = true := by
  rcases h with hev | hev | ⟨nc, hev, hv⟩
  · rw [hev]; rfl
  · rw [hev]; rfl
  · rw [hev]; simp [writesValidated, hv]

/-- File-system state after the first try/except block of `integrate`. -/
def fsAfterTemplates (o : Oracles) (r : ResultData) (fs : FS) : FS :=
  (tryStep (add_to_templates o r) fs).2.1

def fsAfterPrompts (o : Oracles) (r : ResultData) (fs : FS) : FS :=
  (tryStep (add_to_prompts o r) (fsAfterTemplates o r fs)).2.1

def fsAfterModels (o : Oracles) (r : ResultData) (fs : FS) : FS :=
  (tryStep (add_to_models o r) (fsAfterPrompts o r fs)).2.1

def fsAfterMemeGen (o : Oracles) (r : ResultData) (fs : FS) : FS :=
  (tryStep (add_to_meme_generator o r) (fsAfterModels o r fs)).2.1

def fsAfterGenerator (o : Oracles) (r : ResultData) (fs : FS) : FS :=
  (tryStep (update_generator_mapping o r) (fsAfterMemeGen o r fs)).2.1

def fsAfterPipeline (o : Oracles) (r : ResultData) (fs : FS) : FS :=
  (tryStep (update_pipeline_mapping o r) (fsAfterGenerator o r fs)).2.1

theorem integrate_trace (o : Oracles) (r : ResultData) (b : Bool) (fs : FS) :
    (integrate o r b fs).2.2 =
      (add_to_templates o r fs).1 ++
      (add_to_prompts o r (fsAfterTemplates o r fs)).1 ++
      (add_to_models o r (fsAfterPrompts o r fs)).1 ++
      (add_to_meme_generator o r (fsAfterModels o r fs)).1 ++
      (update_generator_mapping o r (fsAfterMemeGen o r fs)).1 ++
      (update_pipeline_mapping o r (fsAfterGenerator o r fs)).1 := by
  simp only [integrate, tryStep_events, fsAfterTemplates, fsAfterPrompts, fsAfterModels,
    fsAfterMemeGen, fsAfterGenerator]

/-- Python `True`, or a captured error-message string — but not the
initial `False` the status dict starts from. -/
def okOrMsg : StatusV → Bool
  | .boolVal bv => bv
  | .msg _ => true

theorem okOrMsg_tryStep (step : FS → List Event × Except String FS) (fs : FS) :
    okOrMsg (tryStep step fs).1 = true := by
  rcases tryStep_status_ok_or_msg step fs with h | ⟨e, h⟩ <;> rw [h] <;> rfl

theorem tryStep_status_of_ok {step : FS → List Event × Except String FS} {fs fs' : FS}
    (h : (step fs).2 = .ok fs') : (tryStep step fs).1 = .boolVal true := by
  rw [tryStep, h]

theorem update_generator_mapping_never_raises (o : Oracles) (r : ResultData) (fs : FS) :
    ∃ fs', (update_generator_mapping o r fs).2 = .ok fs' := by
  rcases update_generator_mapping_cases o r fs with ⟨-, h⟩ | ⟨-, h⟩ | ⟨nc, -, -, h⟩ <;>
    exact ⟨_, h⟩

theorem update_pipeline_mapping_never_raises (o : Oracles) (r : ResultData) (fs : FS) :
    ∃ fs', (update_pipeline_mapping o r fs).2 = .ok fs' := by
  rcases update_pipeline_mapping_cases o r fs with ⟨-, h⟩ | ⟨-, h⟩ | ⟨nc, -, -, h⟩ <;>
    exact ⟨_, h⟩

end Integrator

section IntegratorClaims

open Integrator

/-- C7: every integrator operation that writes a target file has backed
that same file up earlier in the same operation (and hence in the whole
`integrate` run): a write event is always preceded by a backup event of
the same file. -/
theorem integrator_backup_before_write (o : Oracles) (r : ResultData) (b : Bool)
    (fs : FS) :
    opEventsOk (add_to_templates o r fs).1 = true ∧
    opEventsOk (add_to_prompts o r fs).1 = true ∧
    opEventsOk (add_to_models o r fs).1 = true ∧
    opEventsOk (add_to_meme_generator o r fs).1 = true ∧
    opEventsOk (update_generator_mapping o r fs).1 = true ∧
    opEventsOk (update_pipeline_mapping o r fs).1 = true ∧
    opEventsOk (integrate o r b fs).2.2 = true := by
  refine ⟨opEventsOk_of_event_shape (add_to_templates_shapes o r fs).2,
    opEventsOk_of_event_shape (add_to_prompts_shapes o r fs).2,
    opEventsOk_of_event_shape (add_to_models_shapes o r fs).2,
    opEventsOk_of_event_shape (add_to_meme_generator_shapes o r fs).2,
    opEventsOk_of_event_shape (update_generator_mapping_shapes o r fs).2,
    opEventsOk_of_event_shape (update_pipeline_mapping_shapes o r fs).2, ?_⟩
  rw [integrate_trace]
  exact opEventsOk_append _ _
    (opEventsOk_append _ _
      (opEventsOk_append _ _
        (opEventsOk_append _ _
          (opEventsOk_append _ _
            (opEventsOk_of_event_shape (add_to_templates_shapes o r fs).2)
            (opEventsOk_of_event_shape (add_to_prompts_shapes o r _).2))
          (opEventsOk_of_event_shape (add_to_models_shapes o r _).2))
        (opEventsOk_of_event_shape (add_to_meme_generator_shapes o r _).2))
      (opEventsOk_of_event_shape (update_generator_mapping_shapes o r _).2))
    (opEventsOk_of_event_shape (update_pipeline_mapping_shapes o r _).2)

/-- C8: every write performed by an integrator operation carries content
the syntax oracle validated (the post-insertion text was re-parsed before
the write), for every starting file-system state — in particular when
re-running `integrate` on files that already contain the entries. -/
theorem integrator_writes_validated (o : Oracles) (r : ResultData) (b : Bool)
    (fs : FS) :
    writesValidated o.validate (add_to_templates o r fs).1 = true ∧
    writesValidated o.validate (add_to_prompts o r fs).1 = true ∧
    writesValidated o.validate (add_to_models o r fs).1 = true ∧
    writesValidated o.validate (add_to_meme_generator o r fs).1 = true ∧
    writesValidated o.validate (update_generator_mapping o r fs).1 = true ∧
    writesValidated o.validate (update_pipeline_mapping o r fs).1 = true ∧
    writesValidated o.validate (integrate o r b fs).2.2 = true := by
  refine ⟨writesValidated_of_event_shape (add_to_templates_shapes o r fs).2,
    writesValidated_of_event_shape (add_to_prompts_shapes o r fs).2,
    writesValidated_of_event_shape (add_to_models_shapes o r fs).2,
    writesValidated_of_event_shape (add_to_meme_generator_shapes o r fs).2,
    writesValidated_of_event_shape (update_generator_mapping_shapes o r fs).2,
    writesValidated_of_event_shape (update_pipeline_mapping_shapes o r fs).2, ?_⟩
  rw [integrate_trace]
  exact writesValidated_append _ _ _
    (writesValidated_append _ _ _
      (writesValidated_append _ _ _
        (writesValidated_append _ _ _
          (writesValidated_append _ _ _
            (writesValidated_of_event_shape (add_to_templates_shapes o r fs).2)
            (writesValidated_of_event_shape (add_to_prompts_shapes o r _).2))
          (writesValidated_of_event_shape (add_to_models_shapes o r _).2))
        (writesValidated_of_event_shape (add_to_meme_generator_shapes o r _).2))
      (writesValidated_of_event_shape (update_generator_mapping_shapes o r _).2))
    (writesValidated_of_event_shape (update_pipeline_mapping_shapes o r _).2)

/-- C9: the status map always reports `image_copy: False` and the
`copy_image` argument has no effect on anything `integrate` does. -/
theorem integrate_image_copy_false (o : Oracles) (r : ResultData) (fs : FS)
    (b b' : Bool) :
    (integrate o r b fs).1.image_copy = .boolVal false ∧
    integrate o r b fs = integrate o r b' fs :=
  ⟨rfl, rfl⟩

/-- C1 (amended): the four insertion steps that raise on a failed syntax
validation (`templates.py`, `prompts.py`, `models.py`,
`meme_generator.py`) are each recorded as `True` or as the captured error
message, never as the initial `False`; the two mapping updates
(`generator.py`, `pipeline.py`) are always recorded as `True`, silently
skipping their write when their spliced content fails validation; and the
sibling insertions stay independent — the final `templates.py` content is
exactly what the templates step left, whatever happens in the later steps
(in particular a failing rendering-function insertion leaves a validated
template-registry insertion in place). -/
theorem integrate_status_amended (o : Oracles) (r : ResultData) (b : Bool) (fs : FS) :
    okOrMsg (integrate o r b fs).1.templates = true ∧
    okOrMsg (integrate o r b fs).1.prompts = true ∧
    okOrMsg (integrate o r b fs).1.models = true ∧
    okOrMsg (integrate o r b fs).1.meme_generator = true ∧
    (integrate o r b fs).1.generator = .boolVal true ∧
    (integrate o r b fs).1.pipeline = .boolVal true ∧
    ((integrate o r b fs).2.1).files "templates.py" =
      (fsAfterTemplates o r fs).files "templates.py" := by
  refine ⟨okOrMsg_tryStep _ _, okOrMsg_tryStep _ _, okOrMsg_tryStep _ _,
    okOrMsg_tryStep _ _, ?_, ?_, ?_⟩
  · obtain ⟨fs', h⟩ :=
      update_generator_mapping_never_raises o r (fsAfterMemeGen o r fs)
    exact tryStep_status_of_ok h
  · obtain ⟨fs', h⟩ :=
      update_pipeline_mapping_never_raises o r (fsAfterGenerator o r fs)
    exact tryStep_status_of_ok h
  · show (fsAfterPipeline o r fs).files "templates.py" =
      (fsAfterTemplates o r fs).files "templates.py"
    have h6 : (fsAfterPipeline o r fs).files "templates.py" =
        (fsAfterGenerator o r fs).files "templates.py" :=
      tryStep_preserves _ "pipeline.py" _ _ (by decide)
        (update_pipeline_mapping_shapes o r _).1
    have h5 : (fsAfterGenerator o r fs).files "templates.py" =
        (fsAfterMemeGen o r fs).files "templates.py" :=
      tryStep_preserves _ "generator.py" _ _ (by decide)
        (update_generator_mapping_shapes o r _).1
    have h4 : (fsAfterMemeGen o r fs).files "templates.py" =
        (fsAfterModels o r fs).files "templates.py" :=
      tryStep_preserves _ "meme_generator.py" _ _ (by decide)
        (add_to_meme_generator_shapes o r _).1
    have h3 : (fsAfterModels o r fs).files "templates.py" =
        (fsAfterPrompts o r fs).files "templates.py" :=
      tryStep_preserves _ "models.py" _ _ (by decide)
        (add_to_models_shapes o r _).1
    have h2 : (fsAfterPrompts o r fs).files "templates.py" =
        (fsAfterTemplates o r fs).files "templates.py" :=
      tryStep_preserves _ "prompts.py" _ _ (by decide)
        (add_to_prompts_shapes o r _).1
    exact (((h6.trans h5).trans h4).trans h3).trans h2

/-- A syntax oracle that rejects everything, with every insertion pattern
present at position 0: exercises the validation-failure paths. -/
def oEx : Oracles :=
  { validate := fun _ => false
    findTemplates := fun _ => some 0
    findPrompts := fun _ => some 0
    findModelsMarker := fun _ => some 0
    findGenAll := fun _ => some 0
    findIfMain := fun _ => none
    findGenImport := fun _ => none
    findGenerators := fun _ => some 0
    extractModelName := fun _ => none
    findPipImport := fun _ => none
    findOutputModels := fun _ => some 0 }

def rEx : ResultData :=
  ⟨"frag", "frag", "frag", "frag", "frag", "frag", "f"⟩

/-- All six target files exist with content `"content"`. -/
def fsEx : FS :=
  ⟨fun f =>
    if f = "templates.py" ∨ f = "prompts.py" ∨ f = "models.py" ∨
        f = "meme_generator.py" ∨ f = "generator.py" ∨ f = "pipeline.py"
    then some "content" else none⟩

/-- C1 counterexample: with a syntax oracle that rejects every fragment,
the `templates.py` insertion is recorded as the captured error message,
but the `generator.py` insertion — whose spliced content equally fails
syntax validation — is recorded as the boolean `True` (its write is
silently skipped, `generator.py` is left unchanged), so it is not the case
that every insertion whose generated fragment fails syntax validation is
recorded as an error message. -/
theorem integrate_error_recording_counterexample :
    (∀ s, oEx.validate s = false) ∧
    (integrate oEx rEx true fsEx).1.templates =
      .msg "Generated template entry creates invalid Python syntax" ∧
    (integrate oEx rEx true fsEx).1.generator = .boolVal true ∧
    ((integrate oEx rEx true fsEx).2.1).files "generator.py" = some "content" :=
  ⟨fun _ => rfl, rfl, rfl, rfl⟩

/-- Witness for `integrator_backup_before_write` at the concrete
oracle/result/file-system triple. -/
theorem integrator_backup_before_write_witness :
    opEventsOk (integrate oEx rEx true fsEx).2.2 = true ∧
      opEventsOk (add_to_templates oEx rEx fsEx).1 = true :=
  ⟨(integrator_backup_before_write oEx rEx true fsEx).2.2.2.2.2.2,
    (integrator_backup_before_write oEx rEx true fsEx).1⟩

/-- Witness for `integrator_writes_validated` at the concrete triple. -/
theorem integrator_writes_validated_witness :
    writesValidated oEx.validate (integrate oEx rEx true fsEx).2.2 = true ∧
      writesValidated oEx.validate (add_to_templates oEx rEx fsEx).1 = true :=
  ⟨(integrator_writes_validated oEx rEx true fsEx).2.2.2.2.2.2,
    (integrator_writes_validated oEx rEx true fsEx).1⟩

/-- Witness for `integrate_image_copy_false` at the concrete triple. -/
theorem integrate_image_copy_false_witness :
    (integrate oEx rEx true fsEx).1.image_copy = .boolVal false ∧
      integrate oEx rEx true fsEx = integrate oEx rEx false fsEx :=
  integrate_image_copy_false oEx rEx fsEx true false

/-- Witness for `integrate_status_amended` at the concrete triple: the
templates entry carries an error message, the generator entry the boolean
`True`. -/
theorem integrate_status_amended_witness :
    okOrMsg (integrate oEx rEx true fsEx).1.templates = true ∧
      (integrate oEx rEx true fsEx).1.generator = .boolVal true ∧
      ((integrate oEx rEx true fsEx).2.1).files "templates.py" =
        (fsAfterTemplates oEx rEx fsEx).files "templates.py" :=
  ⟨(integrate_status_amended oEx rEx true fsEx).1,
    (integrate_status_amended oEx rEx true fsEx).2.2.2.2.1,
    (integrate_status_amended oEx rEx true fsEx).2.2.2.2.2.2⟩

end IntegratorClaims

/-- A concrete agent set over `ℕ` whose irony stage raises. -/
def agEx : Orchestrator.Agents ℕ :=
  { visual := .ok 1
    slots := fun _ => .ok 2
    irony := fun _ => .error "irony agent failed"
    metadata := fun _ _ _ => .ok 4
    examples := fun _ _ _ => .ok 5
    prompt := fun _ _ _ _ _ => .ok 6
    code := fun _ _ _ => .ok 7 }

/-- Witness for `orchestrator_stage_failure_aborts` at `agEx`: nothing
follows the failed update, and no `complete` update is emitted while
`process` propagates the same error. -/
theorem orchestrator_stage_failure_aborts_witness :
    Orchestrator.noUpdateAfterFailure (Orchestrator.process_with_updates true agEx) =
        true ∧
      Orchestrator.hasComplete (Orchestrator.process_with_updates true agEx) =
        Orchestrator.exceptIsOk (Orchestrator.process true agEx) ∧
      Orchestrator.hasFailed (Orchestrator.process_with_updates true agEx) =
        !(Orchestrator.exceptIsOk (Orchestrator.process true agEx)) :=
  ⟨(orchestrator_stage_failure_aborts ℕ agEx).1,
    (orchestrator_stage_failure_aborts ℕ agEx).2.2.1,
    (orchestrator_stage_failure_aborts ℕ agEx).2.2.2.1⟩

/-- Witness for `empty_list_zero_stats` at the constant-zero analyzer. -/
theorem empty_list_zero_stats_witness :
    Sentiment.generate_summary (Sentiment.analyze_sentiment [] (fun _ => 0)) =
      { total := 0, positive := 0, negative := 0, neutral := 0
        positive_pct := none, negative_pct := none, neutral_pct := none
        avg_compound := none } ∧
    AllSources.calculate_stats (AllSources.analyze_comments [] (fun _ => 0)) =
      { total := 0, positive := 0, negative := 0, neutral := 0
        positive_pct := 0, negative_pct := 0, neutral_pct := 0, avg_compound := 0 } :=
  empty_list_zero_stats (fun _ => 0)

end OscarsAnalytics
